import Mathlib

/-!
Verification of the dynamic-secrets connectivity-check utility (src/main.cpp).

The program is shallowly embedded as follows.

* `Json` models the nlohmann JSON value tree (numbers restricted to
  integers, the only kind the program's config schema uses).
* `Json.bracket` models non-const `operator[]` with a string key:
  on `null` the value is implicitly converted to an object and a `null`
  reference to the (absent) key is returned; on an object a missing key
  yields `null`; on any other value it throws `type_error`.
* `jsonAt` models `json::at`: `out_of_range` on a missing key,
  `type_error` on a non-object.
* `getToInt` / `getToString` model `get_to<int>` / the implicit
  `std::string` conversion: `type_error` when the stored kind differs.
* Third-party I/O outcomes (file read + parse, the broker response,
  the pqxx connection attempt) are inputs of the model, collected in
  `Env`: a body of type `Option (Except String Json)` is `none` when the
  optional response is absent, `some (.error e)` when a body is present
  but `json::parse` throws, and `some (.ok j)` when it parses to `j`.
  A missing `config.json` makes `std::ifstream` produce the empty
  string, whose parse throws, so it is a `parseError` as well.
* C++ exceptions are `Except CppExc`; `withSecrets` additionally
  returns the state of the `DatabaseConfig` object after the call, so
  that mutations already performed when an exception escapes (the
  partial-overwrite path) are visible.
* `run` is `main`: it returns the ordered list of observable I/O
  events and the process exit code (`exit(-1)` is modelled as the
  integer `-1`; at the OS level it is reported as 255, in any case a
  non-zero status).
* C++ `int` narrowing of out-of-range JSON integers is not modelled:
  the config schema's `port` is an ordinary small integer and no claim
  involves values outside the `int` range.
-/

/-- A JSON value as stored by the nlohmann library, with numbers
restricted to integers (the only numeric kind the program reads). -/
inductive Json where
  | null : Json
  | bool : Bool → Json
  | num : Int → Json
  | str : String → Json
  | obj : List (String × Json) → Json
  | arr : List Json → Json

/-- C++ exceptions the program can raise, each carrying the text that
`what()` reports. -/
inductive CppExc where
  | parseError : String → CppExc
  | typeError : String → CppExc
  | outOfRange : String → CppExc
deriving DecidableEq, Repr

/-- The message of a caught exception, as printed by the top-level
catch block in `main`. -/
def CppExc.what : CppExc → String
  | .parseError m => m
  | .typeError m => m
  | .outOfRange m => m

/-- First value bound to key `k` in an object's field list. -/
def lookupKey (kvs : List (String × Json)) (k : String) : Option Json :=
  match kvs with
  | [] => none
  | (k2, v) :: rest => if k2 = k then some v else lookupKey rest k

/-- Non-const `operator[]` with a string key: `null` is turned into an
object (the returned reference reads back as `null`), an object yields
the stored value or `null` for a missing key, and every other kind
throws `type_error`. -/
def Json.bracket : Json → String → Except CppExc Json
  | .null, _ => .ok .null
  | .obj kvs, k => .ok ((lookupKey kvs k).getD .null)
  | _, _ => .error (.typeError "cannot use operator[] with a string argument")

/-- Model of `json::at` with a string key: `out_of_range` for a missing key,
`type_error` on a non-object. -/
def jsonAt (j : Json) (k : String) : Except CppExc Json :=
  match j with
  | .obj kvs =>
    match lookupKey kvs k with
    | some v => .ok v
    | none => .error (.outOfRange ("key not found: " ++ k))
  | _ => .error (.typeError "cannot use at() with a non-object value")

/-- Model of `get_to<int>`: the stored kind must be a number. -/
def getToInt : Json → Except CppExc Int
  | .num n => .ok n
  | _ => .error (.typeError "type must be number")

/-- Conversion of a JSON value to `std::string` (used both by
`get_to<std::string>` and by assigning a `json` to a string field):
the stored kind must be a string. -/
def getToString : Json → Except CppExc String
  | .str s => .ok s
  | _ => .error (.typeError "type must be string")

/-- The string stored under key `k` of `j` by `operator[]` semantics,
when that access yields a string; `none` when the access throws or
yields a non-string. -/
def Json.strField (j : Json) (k : String) : Option String :=
  match j.bracket k with
  | .ok (.str s) => some s
  | _ => none

/-- The configuration record of src/main.cpp. -/
structure DatabaseConfig where
  port : Int
  host : String
  database : String
  secretRole : String
  username : String
  password : String
deriving DecidableEq, Repr

/-- Model of `j.at(k).get_to(field)` for an `int` field. -/
def fieldInt (j : Json) (k : String) : Except CppExc Int :=
  match jsonAt j k with
  | .error e => .error e
  | .ok v => getToInt v

/-- Model of `j.at(k).get_to(field)` for a `std::string` field. -/
def fieldStr (j : Json) (k : String) : Except CppExc String :=
  match jsonAt j k with
  | .error e => .error e
  | .ok v => getToString v

/-- Model of `from_json(const json&, DatabaseConfig&)`: reads the four required
keys in source order into a value-initialized record (`port = 0`, all
strings empty); the first failing access throws. -/
def from_json (j : Json) : Except CppExc DatabaseConfig :=
  match fieldInt j "port" with
  | .error e => .error e
  | .ok port =>
    match fieldStr j "host" with
    | .error e => .error e
    | .ok host =>
      match fieldStr j "database" with
      | .error e => .error e
      | .ok database =>
        match fieldStr j "secret_role" with
        | .error e => .error e
        | .ok secretRole => .ok ⟨port, host, database, secretRole, "", ""⟩

/-- Parse diagnostic for an empty input: a missing (or unreadable)
config file makes the `ifstream` read produce the empty string, whose
parse throws this error. -/
def emptyInputMsg : String := "syntax error - unexpected end of input"

/-- Model of `getDatabaseConfiguration`: the argument is the outcome of reading
and parsing the config file (`none` = file missing, so the raw text is
empty and parsing throws; `some (.error e)` = malformed JSON;
`some (.ok j)` = parsed document `j`). On a parsed document the
`database` sub-object is extracted with `operator[]` and converted via
`from_json`. -/
def getDatabaseConfiguration (fileRead : Option (Except String Json)) :
    Except CppExc DatabaseConfig :=
  match fileRead with
  | none => .error (.parseError emptyInputMsg)
  | some (.error e) => .error (.parseError e)
  | some (.ok j) =>
    match Json.bracket j "database" with
    | .error e => .error e
    | .ok dbJson => from_json dbJson

/-- Model of `DatabaseConfig::withSecrets`: the second argument is the outcome
of `generateCredentials` (`none` = absent optional response;
`some (.error e)` = body present but `json::parse` throws;
`some (.ok body)` = body parsed to `body`). The first component is the
call's outcome (the returned config, or the escaping exception); the
second is the state of the object after the call, which records the
mutations already performed when an exception escapes: the username
assignment runs before the password lookup, so a body whose `data`
object has a username string but no password string leaves the
username overwritten and the password untouched. -/
def DatabaseConfig.withSecrets (cfg : DatabaseConfig)
    (secretResponse : Option (Except String Json)) :
    Except CppExc DatabaseConfig × DatabaseConfig :=
  match secretResponse with
  | none => (.ok cfg, cfg)
  | some (.error e) => (.error (.parseError e), cfg)
  | some (.ok body) =>
    match Json.bracket body "data" with
    | .error e => (.error e, cfg)
    | .ok credentials =>
      match Json.bracket credentials "username" with
      | .error e => (.error e, cfg)
      | .ok ju =>
        match getToString ju with
        | .error e => (.error e, cfg)
        | .ok u =>
          match Json.bracket credentials "password" with
          | .error e => (.error e, { cfg with username := u })
          | .ok jp =>
            match getToString jp with
            | .error e => (.error e, { cfg with username := u })
            | .ok pw => (.ok { cfg with username := u, password := pw },
                         { cfg with username := u, password := pw })

/-- Model of `DatabaseConfig::connectionString`, mirroring the exact pieces the
stream insertions append. -/
def DatabaseConfig.connectionString (c : DatabaseConfig) : String :=
  "host=" ++ c.host ++ " " ++ "port=" ++ toString c.port ++ " "
    ++ "user=" ++ c.username ++ " " ++ "password=" ++ c.password ++ " "
    ++ "dbname=" ++ c.database

/-- The outside world as `main` observes it: the two environment
variables, whether the Vault login succeeded, the config-file read
outcome, the broker credential response, and the database connection
attempt outcome (`.error m` = the pqxx constructor throws with message
`m`; `.ok b` = it returns and `is_open()` reports `b`). -/
structure Env where
  roleId : Option String
  secretId : Option String
  authenticated : Bool
  configFile : Option (Except String Json)
  secretResponse : Option (Except String Json)
  connectResult : Except String Bool

/-- Observable I/O events of one program run, in order. -/
inductive Event where
  | brokerLogin : Event
  | loadConfigFile : Event
  | requestCredentials : String → Event
  | dbConnect : String → Event
  | printLine : String → Event
deriving DecidableEq, Repr

/-- Diagnostic printed by the fail-fast precondition gate in
`getVaultClient`. -/
def envVarDiag : String :=
  "APPROLE_ROLE_ID and APPROLE_SECRET_ID environment variables must be set"

/-- Model of `main` (together with `getVaultClient`, which it calls first):
returns the ordered event trace and the process exit code. The
`Vault::Client` constructor performs the AppRole login round trip, so
constructing the client is the `brokerLogin` event; `exit(-1)` at the
precondition gate is exit code `-1`. -/
def run (env : Env) : List Event × Int :=
  if env.roleId.isNone && env.secretId.isNone then
    ([.printLine envVarDiag], -1)
  else
    if env.authenticated then
      match getDatabaseConfiguration env.configFile with
      | .error ex =>
        ([.brokerLogin, .loadConfigFile, .printLine ex.what], 0)
      | .ok cfg0 =>
        match cfg0.withSecrets env.secretResponse with
        | (.error ex, _) =>
          ([.brokerLogin, .loadConfigFile, .requestCredentials cfg0.secretRole,
            .printLine ex.what], 0)
        | (.ok cfg, _) =>
          match env.connectResult with
          | .error msg =>
            ([.brokerLogin, .loadConfigFile, .requestCredentials cfg0.secretRole,
              .dbConnect cfg.connectionString, .printLine msg], 0)
          | .ok true =>
            ([.brokerLogin, .loadConfigFile, .requestCredentials cfg0.secretRole,
              .dbConnect cfg.connectionString, .printLine "Connected"], 0)
          | .ok false =>
            ([.brokerLogin, .loadConfigFile, .requestCredentials cfg0.secretRole,
              .dbConnect cfg.connectionString, .printLine "Could not connect"], 0)
    else
      ([.brokerLogin, .printLine "Unable to authenticate to Vault"], 0)

/-- A run in which both pipeline stages occur: well-formed config, both
environment variables set, successful login, absent credential
response, closed connection. -/
def envC8 : Env :=
  { roleId := some "role", secretId := some "secret", authenticated := true,
    configFile := some (.ok (Json.obj [("database",
      Json.obj [("port", .num 5432), ("host", .str "db"),
        ("database", .str "app"), ("secret_role", .str "app-role")])])),
    secretResponse := none, connectResult := .ok false }

/-- A run reaching the connection attempt with broker-issued
credentials spliced in. -/
def envHappy : Env :=
  { roleId := some "role", secretId := some "secret", authenticated := true,
    configFile := some (.ok (Json.obj [("database",
      Json.obj [("port", .num 5432), ("host", .str "db"),
        ("database", .str "app"), ("secret_role", .str "app-role")])])),
    secretResponse := some (.ok (Json.obj [("data",
      Json.obj [("username", .str "u1"), ("password", .str "p1")])])),
    connectResult := .ok true }

/-! ### Helper lemmas -/

lemma glue_port (s : String) : " " ++ ("port=" ++ s) = " port=" ++ s := by
  rw [← String.append_assoc]; congr 1

lemma glue_user (s : String) : " " ++ ("user=" ++ s) = " user=" ++ s := by
  rw [← String.append_assoc]; congr 1

lemma glue_password (s : String) : " " ++ ("password=" ++ s) = " password=" ++ s := by
  rw [← String.append_assoc]; congr 1

lemma glue_dbname (s : String) : " " ++ ("dbname=" ++ s) = " dbname=" ++ s := by
  rw [← String.append_assoc]; congr 1

/-- The connection string in the single-template form of the spec. -/
lemma connectionString_eq (c : DatabaseConfig) :
    c.connectionString = "host=" ++ c.host ++ " port=" ++ toString c.port
      ++ " user=" ++ c.username ++ " password=" ++ c.password
      ++ " dbname=" ++ c.database := by
  unfold DatabaseConfig.connectionString
  simp only [String.append_assoc, glue_port, glue_user, glue_password, glue_dbname]

lemma getToString_ok_iff {j : Json} {s : String} :
    getToString j = .ok s ↔ j = .str s := by
  cases j <;> simp [getToString]

lemma getToInt_ok_iff {j : Json} {n : Int} :
    getToInt j = .ok n ↔ j = .num n := by
  cases j <;> simp [getToInt]

lemma fieldInt_ok_iff {j : Json} {k : String} {n : Int} :
    fieldInt j k = .ok n ↔ jsonAt j k = .ok (.num n) := by
  unfold fieldInt
  cases h : jsonAt j k with
  | error e => simp
  | ok v => cases v <;> simp [getToInt]

lemma fieldStr_ok_iff {j : Json} {k : String} {s : String} :
    fieldStr j k = .ok s ↔ jsonAt j k = .ok (.str s) := by
  unfold fieldStr
  cases h : jsonAt j k with
  | error e => simp
  | ok v => cases v <;> simp [getToString]

lemma from_json_ok_iff {j : Json} {cfg : DatabaseConfig} :
    from_json j = .ok cfg ↔
      ∃ p h db r, fieldInt j "port" = .ok p ∧ fieldStr j "host" = .ok h ∧
        fieldStr j "database" = .ok db ∧ fieldStr j "secret_role" = .ok r ∧
        cfg = ⟨p, h, db, r, "", ""⟩ := by
  unfold from_json
  cases hp : fieldInt j "port" with
  | error e => simp
  | ok p =>
    cases hh : fieldStr j "host" with
    | error e => simp
    | ok h =>
      cases hd : fieldStr j "database" with
      | error e => simp
      | ok db =>
        cases hr : fieldStr j "secret_role" with
        | error e => simp
        | ok r => simp [eq_comm]

lemma getDatabaseConfiguration_ok_iff {input : Option (Except String Json)}
    {cfg : DatabaseConfig} :
    getDatabaseConfiguration input = .ok cfg ↔
      ∃ j d, input = some (.ok j) ∧ Json.bracket j "database" = .ok d ∧
        from_json d = .ok cfg := by
  unfold getDatabaseConfiguration
  rcases input with _ | (e | j)
  · simp
  · simp
  · cases hb : Json.bracket j "database" with
    | error e => simp [hb]
    | ok d0 => simp [hb]

lemma withSecrets_none_eq (cfg : DatabaseConfig) :
    cfg.withSecrets none = (.ok cfg, cfg) := rfl

/-- Every outcome of `withSecrets`: an exception before any mutation,
the absent-response identity, an exception after the username
assignment, or full success with both credentials overwritten. -/
lemma withSecrets_cases (cfg : DatabaseConfig)
    (resp : Option (Except String Json)) :
    (∃ e, cfg.withSecrets resp = (.error e, cfg)) ∨
    (resp = none ∧ cfg.withSecrets resp = (.ok cfg, cfg)) ∨
    (∃ b e u, resp = some b ∧
      cfg.withSecrets resp = (.error e, { cfg with username := u })) ∨
    (∃ b u pw, resp = some b ∧
      cfg.withSecrets resp = (.ok { cfg with username := u, password := pw },
        { cfg with username := u, password := pw })) := by
  rcases resp with _ | (e | body)
  · exact Or.inr (Or.inl ⟨rfl, rfl⟩)
  · exact Or.inl ⟨_, rfl⟩
  · cases hd : Json.bracket body "data" with
    | error e =>
      exact Or.inl ⟨e, by simp [DatabaseConfig.withSecrets, hd]⟩
    | ok cred =>
      cases hu : Json.bracket cred "username" with
      | error e =>
        exact Or.inl ⟨e, by simp [DatabaseConfig.withSecrets, hd, hu]⟩
      | ok ju =>
        cases hgu : getToString ju with
        | error e =>
          exact Or.inl ⟨e, by simp [DatabaseConfig.withSecrets, hd, hu, hgu]⟩
        | ok u =>
          cases hp : Json.bracket cred "password" with
          | error e =>
            exact Or.inr (Or.inr (Or.inl ⟨.ok body, e, u, rfl,
              by simp [DatabaseConfig.withSecrets, hd, hu, hgu, hp]⟩))
          | ok jp =>
            cases hgp : getToString jp with
            | error e =>
              exact Or.inr (Or.inr (Or.inl ⟨.ok body, e, u, rfl,
                by simp [DatabaseConfig.withSecrets, hd, hu, hgu, hp, hgp]⟩))
            | ok pw =>
              exact Or.inr (Or.inr (Or.inr ⟨.ok body, u, pw, rfl,
                by simp [DatabaseConfig.withSecrets, hd, hu, hgu, hp, hgp]⟩))

lemma withSecrets_frame_fields (cfg : DatabaseConfig)
    (resp : Option (Except String Json)) :
    (cfg.withSecrets resp).2.port = cfg.port ∧
    (cfg.withSecrets resp).2.host = cfg.host ∧
    (cfg.withSecrets resp).2.database = cfg.database ∧
    (cfg.withSecrets resp).2.secretRole = cfg.secretRole := by
  rcases withSecrets_cases cfg resp with ⟨e, hw⟩ | ⟨_, hw⟩ |
    ⟨b, e, u, _, hw⟩ | ⟨b, u, pw, _, hw⟩ <;>
      rw [hw] <;> exact ⟨rfl, rfl, rfl, rfl⟩

lemma withSecrets_ok_state (cfg : DatabaseConfig)
    (resp : Option (Except String Json)) (c : DatabaseConfig)
    (h : (cfg.withSecrets resp).1 = .ok c) :
    (cfg.withSecrets resp).2 = c := by
  rcases withSecrets_cases cfg resp with ⟨e, hw⟩ | ⟨_, hw⟩ |
    ⟨b, e, u, _, hw⟩ | ⟨b, u, pw, _, hw⟩ <;> rw [hw] at h ⊢ <;> simp_all

lemma withSecrets_changed_some (cfg : DatabaseConfig)
    (resp : Option (Except String Json))
    (h : (cfg.withSecrets resp).2.username ≠ cfg.username ∨
         (cfg.withSecrets resp).2.password ≠ cfg.password) :
    resp.isSome = true := by
  rcases resp with _ | b
  · rw [withSecrets_none_eq] at h
    rcases h with h | h <;> exact absurd rfl h
  · rfl

/-- Every shape a run of `main` can take once the precondition gate has
passed: the authentication-failure message, a caught config-loading
exception, a caught enrichment exception, or a connection attempt
(whose final printed line depends on the connection outcome). -/
lemma run_gateFalse_cases (env : Env)
    (hg : (env.roleId.isNone && env.secretId.isNone) = false) :
    (env.authenticated = false ∧
       run env = ([.brokerLogin, .printLine "Unable to authenticate to Vault"], 0)) ∨
    (env.authenticated = true ∧
       ∃ ex, getDatabaseConfiguration env.configFile = .error ex ∧
         run env = ([.brokerLogin, .loadConfigFile, .printLine ex.what], 0)) ∨
    (env.authenticated = true ∧
       ∃ cfg0 ex st, getDatabaseConfiguration env.configFile = .ok cfg0 ∧
         cfg0.withSecrets env.secretResponse = (.error ex, st) ∧
         run env = ([.brokerLogin, .loadConfigFile,
           .requestCredentials cfg0.secretRole, .printLine ex.what], 0)) ∨
    (env.authenticated = true ∧
       ∃ cfg0 cfg, getDatabaseConfiguration env.configFile = .ok cfg0 ∧
         cfg0.withSecrets env.secretResponse = (.ok cfg, cfg) ∧
         ∃ last, run env = ([.brokerLogin, .loadConfigFile,
           .requestCredentials cfg0.secretRole,
           .dbConnect cfg.connectionString, .printLine last], 0)) := by
  cases ha : env.authenticated with
  | false => exact Or.inl ⟨rfl, by simp [run, hg, ha]⟩
  | true =>
    cases hc : getDatabaseConfiguration env.configFile with
    | error ex =>
      exact Or.inr (Or.inl ⟨rfl, ex, rfl, by simp [run, hg, ha, hc]⟩)
    | ok cfg0 =>
      rcases hw : cfg0.withSecrets env.secretResponse with ⟨res, st⟩
      cases res with
      | error ex =>
        exact Or.inr (Or.inr (Or.inl ⟨rfl, cfg0, ex, st, rfl, hw,
          by simp [run, hg, ha, hc, hw]⟩))
      | ok c =>
        have hst : st = c := by
          have h2c := withSecrets_ok_state cfg0 env.secretResponse c (by rw [hw])
          rw [hw] at h2c
          exact h2c
        subst hst
        refine Or.inr (Or.inr (Or.inr ⟨rfl, cfg0, st, rfl, hw, ?_⟩))
        cases hcr : env.connectResult with
        | error msg => exact ⟨msg, by simp [run, hg, ha, hc, hw, hcr]⟩
        | ok b =>
          cases b with
          | true => exact ⟨"Connected", by simp [run, hg, ha, hc, hw, hcr]⟩
          | false => exact ⟨"Could not connect", by simp [run, hg, ha, hc, hw, hcr]⟩

/-- The gate condition in boolean form, from the option values. -/
lemma gate_false_of_not_both {env : Env}
    (h : ¬(env.roleId = none ∧ env.secretId = none)) :
    (env.roleId.isNone && env.secretId.isNone) = false := by
  cases hr : env.roleId with
  | some v => rfl
  | none =>
    cases hs : env.secretId with
    | some v => rfl
    | none => exact absurd ⟨hr, hs⟩ h

/-- Every shape a run of `main` can take. -/
lemma run_cases (env : Env) :
    (env.roleId = none ∧ env.secretId = none ∧
       run env = ([.printLine envVarDiag], -1)) ∨
    (¬(env.roleId = none ∧ env.secretId = none) ∧ env.authenticated = false ∧
       run env = ([.brokerLogin, .printLine "Unable to authenticate to Vault"], 0)) ∨
    (¬(env.roleId = none ∧ env.secretId = none) ∧ env.authenticated = true ∧
       ∃ ex, getDatabaseConfiguration env.configFile = .error ex ∧
         run env = ([.brokerLogin, .loadConfigFile, .printLine ex.what], 0)) ∨
    (¬(env.roleId = none ∧ env.secretId = none) ∧ env.authenticated = true ∧
       ∃ cfg0 ex st, getDatabaseConfiguration env.configFile = .ok cfg0 ∧
         cfg0.withSecrets env.secretResponse = (.error ex, st) ∧
         run env = ([.brokerLogin, .loadConfigFile,
           .requestCredentials cfg0.secretRole, .printLine ex.what], 0)) ∨
    (¬(env.roleId = none ∧ env.secretId = none) ∧ env.authenticated = true ∧
       ∃ cfg0 cfg, getDatabaseConfiguration env.configFile = .ok cfg0 ∧
         cfg0.withSecrets env.secretResponse = (.ok cfg, cfg) ∧
         ∃ last, run env = ([.brokerLogin, .loadConfigFile,
           .requestCredentials cfg0.secretRole,
           .dbConnect cfg.connectionString, .printLine last], 0)) := by
  by_cases hboth : env.roleId = none ∧ env.secretId = none
  · exact Or.inl ⟨hboth.1, hboth.2, by simp [run, hboth.1, hboth.2]⟩
  · have hg := gate_false_of_not_both hboth
    rcases run_gateFalse_cases env hg with h | h | h | h
    · exact Or.inr (Or.inl ⟨hboth, h.1, h.2⟩)
    · exact Or.inr (Or.inr (Or.inl ⟨hboth, h.1, h.2⟩))
    · exact Or.inr (Or.inr (Or.inr (Or.inl ⟨hboth, h.1, h.2⟩)))
    · exact Or.inr (Or.inr (Or.inr (Or.inr ⟨hboth, h.1, h.2⟩)))

lemma withSecrets_success_eq (cfg : DatabaseConfig) (body dat : Json)
    (u pw : String)
    (hdat : Json.bracket body "data" = .ok dat)
    (hu : Json.bracket dat "username" = .ok (.str u))
    (hpw : Json.bracket dat "password" = .ok (.str pw)) :
    cfg.withSecrets (some (.ok body)) =
      (.ok { cfg with username := u, password := pw },
       { cfg with username := u, password := pw }) := by
  simp [DatabaseConfig.withSecrets, hdat, hu, hpw, getToString]

lemma getDatabaseConfiguration_fields (j d : Json) (p : Int)
    (h db r : String) (cfg0 : DatabaseConfig)
    (hjd : Json.bracket j "database" = .ok d)
    (hp : jsonAt d "port" = .ok (.num p))
    (hh : jsonAt d "host" = .ok (.str h))
    (hdb : jsonAt d "database" = .ok (.str db))
    (hr : jsonAt d "secret_role" = .ok (.str r))
    (hload : getDatabaseConfiguration (some (.ok j)) = .ok cfg0) :
    cfg0 = ⟨p, h, db, r, "", ""⟩ := by
  rcases getDatabaseConfiguration_ok_iff.mp hload with ⟨j2, d2, hj2, hd2, hf⟩
  have hjj : j2 = j := by simp at hj2; exact hj2.symm
  subst hjj
  rw [hjd] at hd2
  have hdd : d2 = d := by simp at hd2; exact hd2.symm
  subst hdd
  rcases from_json_ok_iff.mp hf with ⟨p2, h2, db2, r2, hp2, hh2, hdb2, hr2, hcfg⟩
  rw [fieldInt_ok_iff, hp] at hp2
  rw [fieldStr_ok_iff, hh] at hh2
  rw [fieldStr_ok_iff, hdb] at hdb2
  rw [fieldStr_ok_iff, hr] at hr2
  simp at hp2 hh2 hdb2 hr2
  rw [hcfg, hp2, hh2, hdb2, hr2]

/-- Claim C1: for a config loaded from a well-formed file (host, port,
database taken from the `database` object) and enriched from a
successful broker credential response (username, password taken from
its `data` object), `connectionString` returns exactly
`host=<h> port=<p> user=<u> password=<pw> dbname=<db>`. -/
theorem connectionString_from_file_and_broker
    (j d body dat : Json) (p : Int) (h db r u pw : String)
    (cfg0 cfg : DatabaseConfig)
    (hjd : Json.bracket j "database" = .ok d)
    (hp : jsonAt d "port" = .ok (.num p))
    (hh : jsonAt d "host" = .ok (.str h))
    (hdb : jsonAt d "database" = .ok (.str db))
    (hr : jsonAt d "secret_role" = .ok (.str r))
    (hload : getDatabaseConfiguration (some (.ok j)) = .ok cfg0)
    (hdat : Json.bracket body "data" = .ok dat)
    (hu : Json.bracket dat "username" = .ok (.str u))
    (hpw : Json.bracket dat "password" = .ok (.str pw))
    (hsec : cfg0.withSecrets (some (.ok body)) = (.ok cfg, cfg)) :
    cfg.connectionString =
      "host=" ++ h ++ " port=" ++ toString p ++ " user=" ++ u
        ++ " password=" ++ pw ++ " dbname=" ++ db := by
  have hcfg0 := getDatabaseConfiguration_fields j d p h db r cfg0 hjd hp hh hdb hr hload
  rw [withSecrets_success_eq cfg0 body dat u pw hdat hu hpw] at hsec
  have hcfg : cfg = { cfg0 with username := u, password := pw } := by
    have := congrArg Prod.fst hsec
    simp at this
    exact this.symm
  rw [hcfg, hcfg0, connectionString_eq]

/-- Claim C1 witness: the spec's end-to-end scenario. -/
theorem connectionString_from_file_and_broker_witness :
    (⟨5432, "db", "app", "app-role", "u1", "p1"⟩
        : DatabaseConfig).connectionString =
      "host=" ++ "db" ++ " port=" ++ toString (5432 : Int) ++ " user=" ++ "u1"
        ++ " password=" ++ "p1" ++ " dbname=" ++ "app" :=
  connectionString_from_file_and_broker
    (Json.obj [("database", Json.obj [("port", .num 5432), ("host", .str "db"),
      ("database", .str "app"), ("secret_role", .str "app-role")])])
    (Json.obj [("port", .num 5432), ("host", .str "db"),
      ("database", .str "app"), ("secret_role", .str "app-role")])
    (Json.obj [("data", Json.obj [("username", .str "u1"),
      ("password", .str "p1")])])
    (Json.obj [("username", .str "u1"), ("password", .str "p1")])
    5432 "db" "app" "app-role" "u1" "p1"
    ⟨5432, "db", "app", "app-role", "", ""⟩
    ⟨5432, "db", "app", "app-role", "u1", "p1"⟩
    rfl rfl rfl rfl rfl rfl rfl rfl rfl rfl

/-- Claim C2: when the broker credential response is absent,
`withSecrets` returns the config with username and password exactly as
they were, raises nothing, and leaves the object in its original state
(indistinguishable from a config that was never enriched). -/
theorem withSecrets_absentResponse_unchanged (cfg : DatabaseConfig) :
    cfg.withSecrets none = (.ok cfg, cfg) := rfl

/-- Claim C3: with both environment variables unset, the process prints
the fixed diagnostic and terminates with a non-zero status, with no
broker login, no config-file load and no connection attempt. -/
theorem run_bothUnset_failsFast (env : Env)
    (h1 : env.roleId = none) (h2 : env.secretId = none) :
    run env = ([.printLine envVarDiag], -1) ∧
    (run env).2 ≠ 0 ∧
    Event.brokerLogin ∉ (run env).1 ∧
    Event.loadConfigFile ∉ (run env).1 ∧
    (∀ r, Event.requestCredentials r ∉ (run env).1) ∧
    (∀ s, Event.dbConnect s ∉ (run env).1) := by
  have he : run env = ([.printLine envVarDiag], -1) := by simp [run, h1, h2]
  refine ⟨he, ?_, ?_, ?_, ?_, ?_⟩ <;> rw [he] <;> simp

/-- Claim C3 witness. -/
theorem run_bothUnset_failsFast_witness :
    run { roleId := none, secretId := none, authenticated := true,
          configFile := none, secretResponse := none,
          connectResult := .ok true } = ([.printLine envVarDiag], -1) :=
  (run_bothUnset_failsFast _ rfl rfl).1

/-- Claim C4: with exactly one of the two environment variables set,
the precondition gate does not fire: the run begins with the broker
login attempt (the strategy and client are constructed) and the process
does not take the fail-fast exit. -/
theorem run_oneVarSet_attemptsLogin (env : Env)
    (h : (env.roleId = none ∧ env.secretId ≠ none) ∨
         (env.roleId ≠ none ∧ env.secretId = none)) :
    (run env).1.head? = some Event.brokerLogin ∧ (run env).2 = 0 := by
  have hb : ¬(env.roleId = none ∧ env.secretId = none) := by
    rcases h with ⟨x, y⟩ | ⟨x, y⟩
    · exact fun hc => y hc.2
    · exact fun hc => x hc.1
  have hg := gate_false_of_not_both hb
  rcases run_gateFalse_cases env hg with ⟨_, he⟩ | ⟨_, ex, _, he⟩ |
    ⟨_, cfg0, ex, st, _, _, he⟩ | ⟨_, cfg0, cfg, _, _, last, he⟩ <;>
      rw [he] <;> exact ⟨rfl, rfl⟩

/-- Claim C4 witness: only the role id is set. -/
theorem run_oneVarSet_attemptsLogin_witness :
    (run { roleId := some "role", secretId := none, authenticated := false,
           configFile := none, secretResponse := none,
           connectResult := .ok true }).1.head? = some Event.brokerLogin :=
  (run_oneVarSet_attemptsLogin _ (Or.inr ⟨by simp, rfl⟩)).1

/-- Claim C5: when broker authentication fails (the client's
authenticated state is false) in a run that passed the gate, the
program prints the fixed message, performs no further I/O (no config
load, no credential request, no connection attempt) and exits 0. -/
theorem run_authFailure_stops (env : Env)
    (hg : (env.roleId.isNone && env.secretId.isNone) = false)
    (ha : env.authenticated = false) :
    run env = ([.brokerLogin,
      .printLine "Unable to authenticate to Vault"], 0) ∧
    (run env).2 = 0 ∧
    Event.loadConfigFile ∉ (run env).1 ∧
    (∀ r, Event.requestCredentials r ∉ (run env).1) ∧
    (∀ s, Event.dbConnect s ∉ (run env).1) := by
  have he : run env = ([.brokerLogin,
      .printLine "Unable to authenticate to Vault"], 0) := by
    simp [run, hg, ha]
  refine ⟨he, ?_, ?_, ?_, ?_⟩ <;> rw [he] <;> simp

/-- Claim C5 witness. -/
theorem run_authFailure_stops_witness :
    run { roleId := some "role", secretId := some "secret",
          authenticated := false, configFile := none,
          secretResponse := none, connectResult := .ok true } =
      ([.brokerLogin, .printLine "Unable to authenticate to Vault"], 0) :=
  (run_authFailure_stops
    { roleId := some "role", secretId := some "secret",
      authenticated := false, configFile := none,
      secretResponse := none, connectResult := .ok true } rfl rfl).1

/-- Claim C6: the process exits non-zero exactly when both environment
variables are missing; the only exit codes are 0 and the gate's -1, and
every run (in particular every other failure path) prints a final
message line before exiting. -/
theorem run_exitCode_policy (env : Env) :
    ((run env).2 ≠ 0 ↔ env.roleId = none ∧ env.secretId = none) ∧
    ((run env).2 = 0 ∨ (run env).2 = -1) ∧
    (∃ s pre, (run env).1 = pre ++ [Event.printLine s]) := by
  rcases run_cases env with ⟨h1, h2, he⟩ | ⟨hb, _, he⟩ | ⟨hb, _, ex, _, he⟩ |
    ⟨hb, _, cfg0, ex, st, _, _, he⟩ | ⟨hb, _, cfg0, cfg, _, _, last, he⟩ <;>
      rw [he]
  · exact ⟨⟨fun _ => ⟨h1, h2⟩, fun _ => by decide⟩, Or.inr rfl,
      envVarDiag, [], rfl⟩
  · exact ⟨⟨fun h0 => absurd rfl h0, fun hc => absurd hc hb⟩, Or.inl rfl,
      "Unable to authenticate to Vault", [Event.brokerLogin], rfl⟩
  · exact ⟨⟨fun h0 => absurd rfl h0, fun hc => absurd hc hb⟩, Or.inl rfl,
      ex.what, [Event.brokerLogin, Event.loadConfigFile], rfl⟩
  · exact ⟨⟨fun h0 => absurd rfl h0, fun hc => absurd hc hb⟩, Or.inl rfl,
      ex.what, [Event.brokerLogin, Event.loadConfigFile,
        Event.requestCredentials cfg0.secretRole], rfl⟩
  · exact ⟨⟨fun h0 => absurd rfl h0, fun hc => absurd hc hb⟩, Or.inl rfl,
      last, [Event.brokerLogin, Event.loadConfigFile,
        Event.requestCredentials cfg0.secretRole,
        Event.dbConnect cfg.connectionString], rfl⟩

/-- Claim C7: configuration loading fails with an error (propagating to
the single top-level catch, which prints it and lets the process exit
0) on a missing file, on malformed JSON, and on a parsed document whose
`database` object lacks or mistypes any of the four required keys; a
successful load never substitutes defaults: it returns exactly the
typed values of the four keys, with empty credentials. -/
theorem configLoading_failClosed :
    (∃ ex, getDatabaseConfiguration none = .error ex) ∧
    (∀ e, ∃ ex, getDatabaseConfiguration (some (.error e)) = .error ex) ∧
    (∀ j, ¬(∃ d p h db r, Json.bracket j "database" = .ok d ∧
        jsonAt d "port" = .ok (.num p) ∧ jsonAt d "host" = .ok (.str h) ∧
        jsonAt d "database" = .ok (.str db) ∧
        jsonAt d "secret_role" = .ok (.str r)) →
      ∃ ex, getDatabaseConfiguration (some (.ok j)) = .error ex) ∧
    (∀ input cfg, getDatabaseConfiguration input = .ok cfg →
      ∃ j d, input = some (.ok j) ∧ Json.bracket j "database" = .ok d ∧
        jsonAt d "port" = .ok (.num cfg.port) ∧
        jsonAt d "host" = .ok (.str cfg.host) ∧
        jsonAt d "database" = .ok (.str cfg.database) ∧
        jsonAt d "secret_role" = .ok (.str cfg.secretRole) ∧
        cfg.username = "" ∧ cfg.password = "") ∧
    (∀ env ex, (env.roleId.isNone && env.secretId.isNone) = false →
      env.authenticated = true →
      getDatabaseConfiguration env.configFile = .error ex →
      run env = ([.brokerLogin, .loadConfigFile, .printLine ex.what], 0)) := by
  refine ⟨⟨_, rfl⟩, fun e => ⟨_, rfl⟩, ?_, ?_, ?_⟩
  · intro j hno
    cases hres : getDatabaseConfiguration (some (.ok j)) with
    | error ex => exact ⟨ex, rfl⟩
    | ok cfg =>
      exfalso
      rcases getDatabaseConfiguration_ok_iff.mp hres with ⟨j2, d, hj2, hd, hf⟩
      have hjj : j2 = j := by simp at hj2; exact hj2.symm
      subst hjj
      rcases from_json_ok_iff.mp hf with ⟨p, h, db, r, hp, hh, hdb, hr, _⟩
      rw [fieldInt_ok_iff] at hp
      rw [fieldStr_ok_iff] at hh hdb hr
      exact hno ⟨d, p, h, db, r, hd, hp, hh, hdb, hr⟩
  · intro input cfg hok
    rcases getDatabaseConfiguration_ok_iff.mp hok with ⟨j, d, hj, hd, hf⟩
    rcases from_json_ok_iff.mp hf with ⟨p, h, db, r, hp, hh, hdb, hr, hcfg⟩
    rw [fieldInt_ok_iff] at hp
    rw [fieldStr_ok_iff] at hh hdb hr
    subst hcfg
    exact ⟨j, d, hj, hd, hp, hh, hdb, hr, rfl, rfl⟩
  · intro env ex hg ha hc
    simp [run, hg, ha, hc]

/-- Claim C7 witness: a malformed config file propagates to the
top-level catch, which prints the parser message and exits 0. -/
theorem configLoading_failClosed_witness :
    run { roleId := some "role", secretId := some "secret",
          authenticated := true,
          configFile := some (.error "parse error at line 1"),
          secretResponse := none, connectResult := .ok true } =
      ([.brokerLogin, .loadConfigFile,
        .printLine (CppExc.parseError "parse error at line 1").what], 0) :=
  configLoading_failClosed.2.2.2.2
    { roleId := some "role", secretId := some "secret",
      authenticated := true,
      configFile := some (.error "parse error at line 1"),
      secretResponse := none, connectResult := .ok true }
    (CppExc.parseError "parse error at line 1") rfl rfl rfl

/-- Claim C8 counterexample: in a run where both the Config Loader and
the Secrets Client Bootstrap execute, the config-file load does not
precede the broker login — the login is the first event. -/
theorem configLoader_not_first_counterexample :
    Event.brokerLogin ∈ (run envC8).1 ∧
    Event.loadConfigFile ∈ (run envC8).1 ∧
    ¬((run envC8).1.indexOf Event.loadConfigFile <
        (run envC8).1.indexOf Event.brokerLogin) := by
  decide

/-- Claim C8 (amended): the Secrets Client Bootstrap runs first; the
Config Loader runs only after it, and only when the broker
authentication succeeded — every trace containing a config-file load
starts with the broker login followed by that load. -/
theorem secretsBootstrap_precedes_configLoad (env : Env)
    (h : Event.loadConfigFile ∈ (run env).1) :
    env.authenticated = true ∧
    ∃ rest, (run env).1 =
      Event.brokerLogin :: Event.loadConfigFile :: rest := by
  rcases run_cases env with ⟨_, _, he⟩ | ⟨_, _, he⟩ | ⟨_, ha, ex, _, he⟩ |
    ⟨_, ha, cfg0, ex, st, _, _, he⟩ | ⟨_, ha, cfg0, cfg, _, _, last, he⟩ <;>
      rw [he] at h ⊢
  · simp at h
  · simp at h
  · exact ⟨ha, _, rfl⟩
  · exact ⟨ha, _, rfl⟩
  · exact ⟨ha, _, rfl⟩

/-- Claim C8 witness for the amended statement. -/
theorem secretsBootstrap_precedes_configLoad_witness :
    envC8.authenticated = true ∧
    ∃ rest, (run envC8).1 =
      Event.brokerLogin :: Event.loadConfigFile :: rest :=
  secretsBootstrap_precedes_configLoad envC8 (by decide)

/-- Claim C9: over every possible broker outcome `withSecrets` leaves
`port`, `host`, `database` and `secretRole` untouched; its returned
value is exactly the object's final state (no later mutation); the
credential fields can change only when a broker response was present;
an absent response changes nothing; and the connection string passed to
the database is exactly the one of the config that `withSecrets`
returned — nothing mutates the config afterwards. -/
theorem withSecrets_frame :
    (∀ (cfg : DatabaseConfig) (resp : Option (Except String Json)),
       (cfg.withSecrets resp).2.port = cfg.port ∧
       (cfg.withSecrets resp).2.host = cfg.host ∧
       (cfg.withSecrets resp).2.database = cfg.database ∧
       (cfg.withSecrets resp).2.secretRole = cfg.secretRole) ∧
    (∀ (cfg : DatabaseConfig) (resp : Option (Except String Json))
       (c : DatabaseConfig),
       (cfg.withSecrets resp).1 = .ok c → (cfg.withSecrets resp).2 = c) ∧
    (∀ (cfg : DatabaseConfig) (resp : Option (Except String Json)),
       ((cfg.withSecrets resp).2.username ≠ cfg.username ∨
        (cfg.withSecrets resp).2.password ≠ cfg.password) →
       resp.isSome = true) ∧
    (∀ cfg : DatabaseConfig, cfg.withSecrets none = (.ok cfg, cfg)) ∧
    (∀ (env : Env) (s : String), Event.dbConnect s ∈ (run env).1 →
       ∃ cfg0 cfg, getDatabaseConfiguration env.configFile = .ok cfg0 ∧
         cfg0.withSecrets env.secretResponse = (.ok cfg, cfg) ∧
         s = cfg.connectionString) := by
  refine ⟨withSecrets_frame_fields, withSecrets_ok_state,
    withSecrets_changed_some, fun cfg => rfl, ?_⟩
  intro env s h
  rcases run_cases env with ⟨_, _, he⟩ | ⟨_, _, he⟩ | ⟨_, _, ex, _, he⟩ |
    ⟨_, _, cfg0, ex, st, _, _, he⟩ | ⟨_, _, cfg0, cfg, hc, hw, last, he⟩ <;>
      rw [he] at h <;> simp at h
  exact ⟨cfg0, cfg, hc, hw, h⟩

/-- Claim C9 witness: the connection string used by the happy-path run
is the one of the enriched config. -/
theorem withSecrets_frame_witness :
    ∃ cfg0 cfg, getDatabaseConfiguration envHappy.configFile = .ok cfg0 ∧
      cfg0.withSecrets envHappy.secretResponse = (.ok cfg, cfg) ∧
      "host=db port=5432 user=u1 password=p1 dbname=app" =
        cfg.connectionString :=
  withSecrets_frame.2.2.2.2 envHappy
    "host=db port=5432 user=u1 password=p1 dbname=app" (by decide)

lemma strField_some_iff {j : Json} {k u : String} :
    j.strField k = some u ↔ j.bracket k = .ok (.str u) := by
  unfold Json.strField
  cases hb : j.bracket k with
  | error e => simp
  | ok v => cases v <;> simp

/-- Claim C10: the silent-swallow guarantee covers only an absent
response. A present body raises an exception in every bad case — the
body fails to parse, the `data` access throws, the `data` object lacks
a username string, or it lacks a password string — and the exception
propagates to the top-level catch (message printed, exit 0, no
connection attempt). In the missing-password case the exception escapes
only after the username assignment: the object's final state has the
username overwritten and the password unchanged. -/
theorem withSecrets_presentBody_raises :
    (∀ (cfg : DatabaseConfig) (e : String),
       cfg.withSecrets (some (.error e)) = (.error (.parseError e), cfg)) ∧
    (∀ (cfg : DatabaseConfig) (body : Json) (e : CppExc),
       Json.bracket body "data" = .error e →
       cfg.withSecrets (some (.ok body)) = (.error e, cfg)) ∧
    (∀ (cfg : DatabaseConfig) (body dat : Json),
       Json.bracket body "data" = .ok dat →
       dat.strField "username" = none →
       ∃ ex, cfg.withSecrets (some (.ok body)) = (.error ex, cfg)) ∧
    (∀ (cfg : DatabaseConfig) (body dat : Json) (u : String),
       Json.bracket body "data" = .ok dat →
       dat.strField "username" = some u →
       dat.strField "password" = none →
       ∃ ex, cfg.withSecrets (some (.ok body)) =
         (.error ex, { cfg with username := u })) ∧
    (∀ (env : Env) (cfg0 st : DatabaseConfig) (ex : CppExc),
       (env.roleId.isNone && env.secretId.isNone) = false →
       env.authenticated = true →
       getDatabaseConfiguration env.configFile = .ok cfg0 →
       cfg0.withSecrets env.secretResponse = (.error ex, st) →
       run env = ([.brokerLogin, .loadConfigFile,
         .requestCredentials cfg0.secretRole, .printLine ex.what], 0) ∧
       (∀ s, Event.dbConnect s ∉ (run env).1)) := by
  refine ⟨fun cfg e => rfl, ?_, ?_, ?_, ?_⟩
  · intro cfg body e h
    simp [DatabaseConfig.withSecrets, h]
  · intro cfg body dat h1 h2
    cases hu : Json.bracket dat "username" with
    | error e => exact ⟨e, by simp [DatabaseConfig.withSecrets, h1, hu]⟩
    | ok ju =>
      cases hgu : getToString ju with
      | error e =>
        exact ⟨e, by simp [DatabaseConfig.withSecrets, h1, hu, hgu]⟩
      | ok s =>
        rw [getToString_ok_iff] at hgu
        subst hgu
        rw [strField_some_iff.mpr hu] at h2
        exact absurd h2 (by simp)
  · intro cfg body dat u h1 h2 h3
    rw [strField_some_iff] at h2
    cases hp : Json.bracket dat "password" with
    | error e =>
      exact ⟨e, by simp [DatabaseConfig.withSecrets, h1, h2, hp, getToString]⟩
    | ok jp =>
      cases hgp : getToString jp with
      | error e =>
        refine ⟨e, ?_⟩
        simp only [DatabaseConfig.withSecrets, h1, h2, hp, hgp]
        simp [getToString]
      | ok s =>
        rw [getToString_ok_iff] at hgp
        subst hgp
        rw [strField_some_iff.mpr hp] at h3
        exact absurd h3 (by simp)
  · intro env cfg0 st ex hg ha hc hw
    have he : run env = ([.brokerLogin, .loadConfigFile,
        .requestCredentials cfg0.secretRole, .printLine ex.what], 0) := by
      simp [run, hg, ha, hc, hw]
    refine ⟨he, ?_⟩
    rw [he]
    simp

/-- Claim C10 witness: a broker body whose `data` object has a username
but no password leaves the username overwritten, the password
untouched, and the exception escaping. -/
theorem withSecrets_presentBody_raises_witness :
    ∃ ex, (⟨5432, "db", "app", "app-role", "", ""⟩
        : DatabaseConfig).withSecrets
        (some (.ok (Json.obj [("data",
          Json.obj [("username", .str "u9")])]))) =
      (.error ex, { (⟨5432, "db", "app", "app-role", "", ""⟩
        : DatabaseConfig) with username := "u9" }) :=
  withSecrets_presentBody_raises.2.2.2.1
    ⟨5432, "db", "app", "app-role", "", ""⟩
    (Json.obj [("data", Json.obj [("username", .str "u9")])])
    (Json.obj [("username", .str "u9")]) "u9" rfl rfl rfl
